import Mathlib

/-!
Shallow embedding of the term-detection engine of `src/app.py`
(the APEC-RISE text harmonization tool).

Python strings are modelled as `List Char`; the `re` patterns built by the
program are pure literals after `re.escape`, compiled with `re.IGNORECASE`,
so matching is modelled as case-insensitive literal substring matching with
Python's left-to-right non-overlapping `finditer` semantics.

NOTE on the pattern: the source builds its regex with a *raw* f-string,
`rf"\\b({re.escape(term)})\\b"`.  In a raw string `\\b` denotes the two
characters backslash-backslash followed by `b`; the regex engine reads
`\\` as an escaped literal backslash.  The compiled pattern therefore
requires a literal backslash followed by `b` on each side of the term —
it is NOT the word-boundary assertion `\b`.  The embedding reproduces this
faithfully: `patOf term = "\b" ++ term ++ "\b"` as a literal string
(written here with the two characters backslash and `b` on each side).

The spaCy pipeline (`nlp`) is an external dependency; it is modelled as an
oracle parameter `ner : Str → List (Str × Str)` returning, for a snippet,
the recognized entities as (entity text, entity label) pairs, exactly the
data `is_named_entity` consumes.
-/

/-- Python strings as lists of characters. -/
abbrev Str := List Char

/-- Convert a Lean string literal to the embedding's string type. -/
def str (s : String) : Str := s.data

/-- Python `str.lower()` (ASCII, which covers every string the program uses). -/
def lowerS (s : Str) : Str := s.map Char.toLower

/-- Case-insensitive literal match of `pat` at position `i` of `text`
(the semantics of the program's escaped-literal pattern under
`re.IGNORECASE`). -/
def litMatchAt (pat text : Str) (i : Nat) : Bool :=
  lowerS ((text.drop i).take pat.length) == lowerS pat

/-- Keep, from an ascending list of candidate match positions, the ones a
left-to-right non-overlapping scan retains: a position is kept iff it does
not overlap the previously kept match of length `len`. -/
def nonOverlap (len : Nat) : List Nat → Nat → List Nat
  | [], _ => []
  | i :: rest, lo =>
    if lo ≤ i then i :: nonOverlap len rest (i + len)
    else nonOverlap len rest lo

/-- Python `pattern.finditer(text)` for the program's fixed-length literal
patterns: the start offsets of the leftmost non-overlapping
case-insensitive occurrences, in increasing order. -/
def finditer (pat text : Str) : List Nat :=
  nonOverlap pat.length ((List.range (text.length + 1)).filter (litMatchAt pat text)) 0

/-- The literal pattern the program compiles for a term:
`rf"\\b({re.escape(term)})\\b"`, i.e. literal backslash-`b` on each side
of the (escaped, hence literal) term. -/
def patOf (term : Str) : Str := str "\\b" ++ term ++ str "\\b"

/-- `term.lower() in ["national", "taiwan"]` — the guard on the
named-entity exception in `scan_text` / `scan_pdf`. -/
def ctxSensitive (term : Str) : Bool :=
  lowerS term == str "national" || lowerS term == str "taiwan"

/-- Python `needle in hay` on strings: `needle` occurs as a contiguous
substring of `hay`. -/
def substrB (needle hay : Str) : Bool :=
  (List.range (hay.length + 1)).any (fun i => (hay.drop i).take needle.length == needle)

/-- `is_named_entity(snippet, term)` from `src/app.py`: some entity
recognized in the snippet has text containing the term (case-insensitive
substring) and label `"ORG"`. -/
def is_named_entity (ner : Str → List (Str × Str)) (snippet term : Str) : Bool :=
  (ner snippet).any (fun e => substrB (lowerS term) (lowerS e.1) && e.2 == str "ORG")

/-- Python `str.strip()` restricted to the whitespace the program's inputs
contain. -/
def stripS (s : Str) : Str :=
  ((s.dropWhile Char.isWhitespace).reverse.dropWhile Char.isWhitespace).reverse

/-- `.replace('\n', ' ')` on a snippet. -/
def collapseNl (s : Str) : Str := s.map (fun c => if c == '\n' then ' ' else c)

/-- Python slice `text[a:b]` for `a ≤ b` (natural-number truncation agrees
with the program's `max(0, ·)` / `min(len, ·)` clamping). -/
def sliceS (text : Str) (a b : Nat) : Str := (text.drop a).take (b - a)

/-- Snippet taken in `scan_text`:
`text[max(0, start-40) : min(len(text), start+60)].replace('\n', ' ')`. -/
def snippetText (text : Str) (start : Nat) : Str :=
  collapseNl (sliceS text (start - 40) (min text.length (start + 60)))

/-- Snippet taken in `scan_pdf`:
`text[max(0, start-40) : min(len(text), end+60)].replace('\n', ' ')`. -/
def snippetPdf (text : Str) (start stop : Nat) : Str :=
  collapseNl (sliceS text (start - 40) (min text.length (stop + 60)))

/-- `estimated_page = max(1, (start // chars_per_page) + 1)`. -/
def estimatedPage (cpp start : Nat) : Nat := max 1 (start / cpp + 1)

/-- A row of the `results` list built by the scan functions. -/
structure Entry where
  bannedTerm : Str
  page : Nat
  context : Str
  replacement : Str
deriving DecidableEq

/-- A row of the `skipped` list built by the scan functions. -/
structure SkipEntry where
  skippedTerm : Str
  page : Nat
  context : Str
deriving DecidableEq

/-- `f"...{snippet.strip()}..."`. -/
def contextOf (snip : Str) : Str := str "..." ++ stripS snip ++ str "..."

/-- The skip test in `scan_text`:
`term.lower() in ["national", "taiwan"] and is_named_entity(snippet, term)`. -/
def skipCond (ner : Str → List (Str × Str)) (text term : Str) (start : Nat) : Bool :=
  ctxSensitive term && is_named_entity ner (snippetText text start) term

/-- The `results` row `scan_text` appends for a match of `term` at `start`
(`match.group()` is the whole matched slice, backslashes included). -/
def mkEntry (text : Str) (cpp : Nat) (term : Str) (suggs : List Str) (start : Nat) : Entry :=
  { bannedTerm := sliceS text start (start + (patOf term).length)
    page := estimatedPage cpp start
    context := contextOf (snippetText text start)
    replacement := List.intercalate (str ", ") suggs }

/-- The `skipped` row `scan_text` appends for a match of `term` at `start`. -/
def mkSkip (text : Str) (cpp : Nat) (term : Str) (start : Nat) : SkipEntry :=
  { skippedTerm := sliceS text start (start + (patOf term).length)
    page := estimatedPage cpp start
    context := contextOf (snippetText text start) }

/-- Start offsets of the matches of `term` that `scan_text` accepts. -/
def acceptedStartsFor (ner : Str → List (Str × Str)) (text term : Str) : List Nat :=
  (finditer (patOf term) text).filter (fun i => !(skipCond ner text term i))

/-- Start offsets of the matches of `term` that `scan_text` skips. -/
def skippedStartsFor (ner : Str → List (Str × Str)) (text term : Str) : List Nat :=
  (finditer (patOf term) text).filter (fun i => skipCond ner text term i)

/-- The `results` rows `scan_text` produces for one dictionary term. -/
def acceptedEntriesFor (ner : Str → List (Str × Str)) (text : Str) (cpp : Nat)
    (term : Str) (suggs : List Str) : List Entry :=
  (acceptedStartsFor ner text term).map (mkEntry text cpp term suggs)

/-- The `skipped` rows `scan_text` produces for one dictionary term. -/
def skippedEntriesFor (ner : Str → List (Str × Str)) (text : Str) (cpp : Nat)
    (term : Str) : List SkipEntry :=
  (skippedStartsFor ner text term).map (mkSkip text cpp term)

/-- `scan_text(text, banned_dict, chars_per_page)` from `src/app.py`:
iterates the dictionary in insertion order, and for each term iterates its
non-overlapping matches in position order, appending each to `results` or
(for "national"/"Taiwan" inside a recognized ORG entity) to `skipped`;
returns `(results, skipped, text)`. -/
def scan_text (ner : Str → List (Str × Str)) (text : Str)
    (dict : List (Str × List Str)) (cpp : Nat) :
    List Entry × List SkipEntry × Str :=
  ((dict.map (fun p => acceptedEntriesFor ner text cpp p.1 p.2)).flatten,
   (dict.map (fun p => skippedEntriesFor ner text cpp p.1)).flatten,
   text)

/-- The skip test in `scan_pdf` (its snippet window ends at
`match.end() + 60`). -/
def pdfSkipCond (ner : Str → List (Str × Str)) (text term : Str) (start : Nat) : Bool :=
  ctxSensitive term &&
    is_named_entity ner (snippetPdf text start (start + (patOf term).length)) term

/-- The `results` row `scan_pdf` appends for a match of `term` at `start`
on page `pageNo`. -/
def mkPdfEntry (text : Str) (pageNo : Nat) (term : Str) (suggs : List Str)
    (start : Nat) : Entry :=
  { bannedTerm := sliceS text start (start + (patOf term).length)
    page := pageNo
    context := contextOf (snippetPdf text start (start + (patOf term).length))
    replacement := List.intercalate (str ", ") suggs }

/-- The `skipped` row `scan_pdf` appends for a match of `term` at `start`
on page `pageNo`. -/
def mkPdfSkip (text : Str) (pageNo : Nat) (term : Str) (start : Nat) : SkipEntry :=
  { skippedTerm := sliceS text start (start + (patOf term).length)
    page := pageNo
    context := contextOf (snippetPdf text start (start + (patOf term).length)) }

/-- The `results` rows `scan_pdf` produces for one term on one page. -/
def pdfAcceptedFor (ner : Str → List (Str × Str)) (text : Str) (pageNo : Nat)
    (term : Str) (suggs : List Str) : List Entry :=
  ((finditer (patOf term) text).filter (fun i => !(pdfSkipCond ner text term i))).map
    (mkPdfEntry text pageNo term suggs)

/-- The `skipped` rows `scan_pdf` produces for one term on one page. -/
def pdfSkippedFor (ner : Str → List (Str × Str)) (text : Str) (pageNo : Nat)
    (term : Str) : List SkipEntry :=
  ((finditer (patOf term) text).filter (fun i => pdfSkipCond ner text term i)).map
    (mkPdfSkip text pageNo term)

/-- `scan_pdf(file, banned_dict)` from `src/app.py`, with PyMuPDF's per-page
text extraction modelled as the `pages` input (`page.get_text()` for each
page, in page order; `enumerate(doc, start=1)` numbers pages from 1):
page-major, then term-major in dictionary order, then match order;
`all_text` is the concatenation of the page texts each followed by a
newline. -/
def scan_pdf (ner : Str → List (Str × Str)) (pages : List Str)
    (dict : List (Str × List Str)) :
    List Entry × List SkipEntry × Str :=
  (((pages.enum).map (fun q =>
      (dict.map (fun p => pdfAcceptedFor ner q.2 (q.1 + 1) p.1 p.2)).flatten)).flatten,
   ((pages.enum).map (fun q =>
      (dict.map (fun p => pdfSkippedFor ner q.2 (q.1 + 1) p.1)).flatten)).flatten,
   (pages.map (fun p => p ++ str "\n")).flatten)

/-- Per-term frequency of the accepted findings (the count behind the
app's `value_counts` summary of the `Banned Term` column). -/
def termFrequency (rs : List Entry) : Str → Nat :=
  fun t => (rs.filter (fun e => e.bannedTerm == t)).length

/-- The start offsets of the accepted entries of `scan_text`, in the order
the entries are appended to `results`. -/
def scanAccStarts (ner : Str → List (Str × Str)) (text : Str)
    (dict : List (Str × List Str)) : List Nat :=
  (dict.map (fun p => acceptedStartsFor ner text p.1)).flatten

/-- A stub entity recognizer that finds no entities. -/
def nerNone : Str → List (Str × Str) := fun _ => []

/-- `banned_terms_dict` from `src/app.py`, in insertion order. -/
def banned_terms_dict : List (Str × List Str) :=
  [(str "accessible", [str "reachable; usable; broadly available"]),
   (str "activism", [str "stakeholder engagement; issue-focused participation"]),
   (str "anti-racism", [str "addressing discrimination"]),
   (str "bias", [str "subjective influence"]),
   (str "clean energy", [str "energy diversification; secure energy sourcing"]),
   (str "climate change", [str "environmental shifts"]),
   (str "climate crisis", [str "environmental conditions; weather-related impacts"]),
   (str "climate science", [str "environmental data"]),
   (str "country", [str "economy"]),
   (str "DEI", [str "broad participation; inclusive stakeholder engagement"]),
   (str "DEIA", [str "broad participation; inclusive stakeholder engagement"]),
   (str "disability", [str "persons with disabilities"]),
   (str "diverse", [str "varied"]),
   (str "diverse backgrounds", [str "varied experiences"]),
   (str "diverse communities", [str "different population groups"]),
   (str "diverse community", [str "broad-based community"]),
   (str "diverse group", [str "multifaceted group"]),
   (str "diverse groups", [str "multiple stakeholder groups"]),
   (str "diversified", [str "varied"]),
   (str "diversify", [str "broaden"]),
   (str "diversifying", [str "expanding"]),
   (str "diversity", [str "variety"]),
   (str "equal opportunity", [str "merit-based opportunity; fair process"]),
   (str "equity", [str "fair access"]),
   (str "gender", [str "demographics"]),
   (str "gender mainstreaming", [str "gender considerations"]),
   (str "gender-responsive", [str "inclusive of gender perspectives"]),
   (str "Gulf of Mexico", [str "Gulf of America"]),
   (str "inclusion", [str "broad-based participation"]),
   (str "inclusive", [str "participatory"]),
   (str "inclusive leadership", [str "broad-based leadership"]),
   (str "inclusiveness", [str "broad engagement"]),
   (str "inclusivity", [str "collaborative approaches"]),
   (str "inequality", [str "gaps in access or opportunity"]),
   (str "national", [str "domestic"]),
   (str "non-binary", [str "gender-diverse"]),
   (str "nonbinary", [str "gender-diverse"]),
   (str "oppression", [str "restrictive conditions; limiting environments"]),
   (str "oppressive", [str "restrictive; limiting"]),
   (str "social justice", [str "fair policy outcomes; community fairness"]),
   (str "socioeconomic", [str "economic background; living conditions"]),
   (str "Taiwan", [str "Chinese Taipei"]),
   (str "victim", [str "impacted individual; affected party"]),
   (str "vulnerable populations", [str "underrepresented stakeholders"])
  ]

/-- Stub entity recognizer returning one geopolitical entity covering
"Taiwan". -/
def nerGpe : Str → List (Str × Str) := fun _ => [(str "Taiwan", str "GPE")]

/-- Stub entity recognizer returning one organization entity whose text
contains "equity". -/
def nerOrg : Str → List (Str × Str) := fun _ => [(str "Equity Fund", str "ORG")]

/-- Scenario 1 input text. -/
def scenario1Text : Str := str "Our climate change policy promotes diversity."

/-- Scenario 1 dictionary. -/
def scenario1Dict : List (Str × List Str) :=
  [(str "climate change", [str "environmental shifts"]),
   (str "diversity", [str "variety"])]

/-- Scenario 2 input text. -/
def scenario2Text : Str := str "National Taiwan University announced new research."

/-- A sentence the app's own in-page documentation lists under
"Disallowed (Should Be Flagged)". -/
def shouldFlagText : Str := str "National identity is central to the reform agenda."

/-- A text containing the literal characters backslash, `b` around
"national", with alphanumeric characters immediately outside: the only
kind of text the compiled pattern can match. -/
def bsNationalText : Str := str "x\\bnational\\bz"

/-- One-term dictionary for "national". -/
def nationalDict : List (Str × List Str) := [(str "national", [str "domestic"])]

/-- Document-order fixture: the "national" match starts at offset 0,
before the "accessible" match at offset 13, but "accessible" precedes
"national" in the dictionary. -/
def orderText : Str := str "\\bnational\\b \\baccessible\\b"

/-- Two-term dictionary in the program's insertion order. -/
def orderDict : List (Str × List Str) :=
  [(str "accessible", [str "reachable; usable; broadly available"]),
   (str "national", [str "domestic"])]

/-- A text the compiled pattern does match for "equity". -/
def equityText : Str := str "x \\bequity\\b z"

/-- One-term dictionary for "equity". -/
def equityDict : List (Str × List Str) := [(str "equity", [str "fair access"])]

/-- A text the compiled pattern does match for "Taiwan". -/
def taiwanText : Str := str "x\\bTaiwan\\bz"

/-- One-term dictionary for "Taiwan". -/
def taiwanDict : List (Str × List Str) := [(str "Taiwan", [str "Chinese Taipei"])]

/-- The 3-page PDF of scenario 4: page 2 contains "equity" once. -/
def pdfPages : List Str := [str "Intro.", str "Our equity policy.", str "End."]

/-- Text used for the determinism witness. -/
def idemText : Str := str "Our climate change policy promotes diversity."

theorem nonOverlap_sublist (len : Nat) :
    ∀ (xs : List Nat) (lo : Nat), (nonOverlap len xs lo).Sublist xs := by
  intro xs
  induction xs with
  | nil => intro lo; simp [nonOverlap]
  | cons i rest ih =>
    intro lo
    simp only [nonOverlap]
    split
    · exact (ih (i + len)).cons₂ i
    · exact (ih lo).cons i

theorem finditer_pairwise (pat text : Str) :
    List.Pairwise (fun a b => a < b) (finditer pat text) := by
  have h1 : (finditer pat text).Sublist
      ((List.range (text.length + 1)).filter (litMatchAt pat text)) :=
    nonOverlap_sublist _ _ _
  have h2 : ((List.range (text.length + 1)).filter (litMatchAt pat text)).Sublist
      (List.range (text.length + 1)) := List.filter_sublist _
  exact (List.pairwise_lt_range _).sublist (h1.trans h2)

theorem ctxSensitive_eq_false {term : Str}
    (h1 : lowerS term ≠ str "national") (h2 : lowerS term ≠ str "taiwan") :
    ctxSensitive term = false := by
  simp [ctxSensitive, h1, h2]

theorem skippedEntriesFor_eq_nil (ner : Str → List (Str × Str)) (text : Str)
    (cpp : Nat) (term : Str) (h : ctxSensitive term = false) :
    skippedEntriesFor ner text cpp term = [] := by
  simp [skippedEntriesFor, skippedStartsFor, skipCond, h]

theorem acceptedEntriesFor_eq_all (ner : Str → List (Str × Str)) (text : Str)
    (cpp : Nat) (term : Str) (suggs : List Str) (h : ctxSensitive term = false) :
    acceptedEntriesFor ner text cpp term suggs =
      (finditer (patOf term) text).map (mkEntry text cpp term suggs) := by
  simp [acceptedEntriesFor, acceptedStartsFor, skipCond, h]

theorem skipped_blocks_filter (ner : Str → List (Str × Str)) (text : Str) (cpp : Nat) :
    ∀ dict : List (Str × List Str),
      (dict.map (fun p => skippedEntriesFor ner text cpp p.1)).flatten =
      ((dict.filter (fun p => ctxSensitive p.1)).map
        (fun p => skippedEntriesFor ner text cpp p.1)).flatten := by
  intro dict
  induction dict with
  | nil => rfl
  | cons p rest ih =>
    by_cases h : ctxSensitive p.1 = true
    · simp [List.filter_cons, h, ih]
    · have h' : ctxSensitive p.1 = false := by simpa using h
      simp [List.filter_cons, h', skippedEntriesFor_eq_nil ner text cpp p.1 h', ih]

theorem accepted_blocks_full (ner : Str → List (Str × Str)) (text : Str) (cpp : Nat) :
    ∀ dict : List (Str × List Str),
      (dict.map (fun p => acceptedEntriesFor ner text cpp p.1 p.2)).flatten =
      (dict.map (fun p =>
        if ctxSensitive p.1 then acceptedEntriesFor ner text cpp p.1 p.2
        else (finditer (patOf p.1) text).map (mkEntry text cpp p.1 p.2))).flatten := by
  intro dict
  induction dict with
  | nil => rfl
  | cons p rest ih =>
    by_cases h : ctxSensitive p.1 = true
    · simp [h, ih]
    · have h' : ctxSensitive p.1 = false := by simpa using h
      simp [h', acceptedEntriesFor_eq_all ner text cpp p.1 p.2 h', ih]

theorem pdfSkippedFor_eq_nil (ner : Str → List (Str × Str)) (text : Str)
    (pageNo : Nat) (term : Str) (h : ctxSensitive term = false) :
    pdfSkippedFor ner text pageNo term = [] := by
  simp [pdfSkippedFor, pdfSkipCond, h]

theorem pdfAcceptedFor_eq_all (ner : Str → List (Str × Str)) (text : Str)
    (pageNo : Nat) (term : Str) (suggs : List Str) (h : ctxSensitive term = false) :
    pdfAcceptedFor ner text pageNo term suggs =
      (finditer (patOf term) text).map (mkPdfEntry text pageNo term suggs) := by
  simp [pdfAcceptedFor, pdfSkipCond, h]

theorem pdf_skipped_blocks_filter (ner : Str → List (Str × Str)) (text : Str)
    (pageNo : Nat) :
    ∀ dict : List (Str × List Str),
      (dict.map (fun p => pdfSkippedFor ner text pageNo p.1)).flatten =
      ((dict.filter (fun p => ctxSensitive p.1)).map
        (fun p => pdfSkippedFor ner text pageNo p.1)).flatten := by
  intro dict
  induction dict with
  | nil => rfl
  | cons p rest ih =>
    by_cases h : ctxSensitive p.1 = true
    · simp [List.filter_cons, h, ih]
    · have h' : ctxSensitive p.1 = false := by simpa using h
      simp [List.filter_cons, h', pdfSkippedFor_eq_nil ner text pageNo p.1 h', ih]

theorem pdf_accepted_blocks_full (ner : Str → List (Str × Str)) (text : Str)
    (pageNo : Nat) :
    ∀ dict : List (Str × List Str),
      (dict.map (fun p => pdfAcceptedFor ner text pageNo p.1 p.2)).flatten =
      (dict.map (fun p =>
        if ctxSensitive p.1 then pdfAcceptedFor ner text pageNo p.1 p.2
        else (finditer (patOf p.1) text).map (mkPdfEntry text pageNo p.1 p.2))).flatten := by
  intro dict
  induction dict with
  | nil => rfl
  | cons p rest ih =>
    by_cases h : ctxSensitive p.1 = true
    · simp [h, ih]
    · have h' : ctxSensitive p.1 = false := by simpa using h
      simp [h', pdfAcceptedFor_eq_all ner text pageNo p.1 p.2 h', ih]

/-- C10: invariant of both `scan_text` and `scan_pdf` — every entry of the
returned skipped sequence arises from a dictionary term whose lowercase
form is "national" or "taiwan" (the skipped output equals the
concatenation of the skipped blocks of exactly those terms, per page for
`scan_pdf`), and for every other dictionary term every match is placed in
the accepted results. -/
theorem C10_skip_only_context_terms (ner : Str → List (Str × Str)) (text : Str)
    (pages : List Str) (dict : List (Str × List Str)) (cpp : Nat) :
    (scan_text ner text dict cpp).2.1 =
      ((dict.filter (fun p => ctxSensitive p.1)).map
        (fun p => skippedEntriesFor ner text cpp p.1)).flatten ∧
    (scan_text ner text dict cpp).1 =
      (dict.map (fun p =>
        if ctxSensitive p.1 then acceptedEntriesFor ner text cpp p.1 p.2
        else (finditer (patOf p.1) text).map (mkEntry text cpp p.1 p.2))).flatten ∧
    (scan_pdf ner pages dict).2.1 =
      ((pages.enum).map (fun q =>
        ((dict.filter (fun p => ctxSensitive p.1)).map
          (fun p => pdfSkippedFor ner q.2 (q.1 + 1) p.1)).flatten)).flatten ∧
    (scan_pdf ner pages dict).1 =
      ((pages.enum).map (fun q =>
        (dict.map (fun p =>
          if ctxSensitive p.1 then pdfAcceptedFor ner q.2 (q.1 + 1) p.1 p.2
          else (finditer (patOf p.1) q.2).map
            (mkPdfEntry q.2 (q.1 + 1) p.1 p.2))).flatten)).flatten := by
  refine ⟨skipped_blocks_filter ner text cpp dict,
    accepted_blocks_full ner text cpp dict, ?_, ?_⟩
  · simp only [scan_pdf]
    exact congrArg List.flatten (List.map_congr_left
      (fun q _ => pdf_skipped_blocks_filter ner q.2 (q.1 + 1) dict))
  · simp only [scan_pdf]
    exact congrArg List.flatten (List.map_congr_left
      (fun q _ => pdf_accepted_blocks_full ner q.2 (q.1 + 1) dict))

/-- C3 (amended): within each dictionary term, the accepted and skipped
entries of `scan_text` appear in strictly increasing document position;
the whole `results`/`skipped` lists are ordered dictionary-term-major,
not globally by document position. -/
theorem C3_per_term_order (ner : Str → List (Str × Str)) (text term : Str) :
    List.Pairwise (fun a b => a < b) (acceptedStartsFor ner text term) ∧
    List.Pairwise (fun a b => a < b) (skippedStartsFor ner text term) := by
  constructor
  · exact (finditer_pairwise (patOf term) text).sublist (List.filter_sublist _)
  · exact (finditer_pairwise (patOf term) text).sublist (List.filter_sublist _)

/-- C3 (counterexample): with "accessible" before "national" in the
dictionary and the "national" match at offset 0 before the "accessible"
match at offset 13 in the document, `scan_text` reports the "accessible"
entry first — the accepted list is not in document order, hence not a
subsequence of the document-ordered match sequence. -/
theorem C3_counterexample :
    scanAccStarts nerNone orderText orderDict = [13, 0] ∧
    (scan_text nerNone orderText orderDict 1800).1.map Entry.bannedTerm =
      [str "\\baccessible\\b", str "\\bnational\\b"] ∧
    ¬ List.Pairwise (fun a b => a ≤ b) (scanAccStarts nerNone orderText orderDict) := by
  refine ⟨by decide, by decide, by decide⟩

/-- C4 (amended): the named-entity tier applies only to the two
context-sensitive terms; for every other term the skip branch is
unreachable — no match is ever skipped, whatever the recognizer returns,
and every match is accepted. -/
theorem C4_entity_tier_only_context_terms (ner : Str → List (Str × Str))
    (text : Str) (cpp : Nat) (term : Str) (suggs : List Str)
    (h1 : lowerS term ≠ str "national") (h2 : lowerS term ≠ str "taiwan") :
    skippedEntriesFor ner text cpp term = [] ∧
    acceptedEntriesFor ner text cpp term suggs =
      (finditer (patOf term) text).map (mkEntry text cpp term suggs) :=
  have hc := ctxSensitive_eq_false h1 h2
  ⟨skippedEntriesFor_eq_nil ner text cpp term hc,
   acceptedEntriesFor_eq_all ner text cpp term suggs hc⟩

/-- C4 (counterexample): a match of "equity" whose snippet contains a
recognized ORG entity covering the term is NOT skipped — the scan accepts
it, because the entity exception is guarded by
`term.lower() in ["national", "taiwan"]`. -/
theorem C4_counterexample :
    is_named_entity nerOrg (snippetText equityText 2) (str "equity") = true ∧
    (scan_text nerOrg equityText equityDict 1800).2.1 = [] ∧
    (scan_text nerOrg equityText equityDict 1800).1.length = 1 := by
  refine ⟨by decide, by decide, by decide⟩

/-- Witness for C4: the amended theorem applied to the term "equity" with
a recognizer that reports an ORG entity containing it. -/
theorem C4_witness :
    (lowerS (str "equity") ≠ str "national") ∧ (lowerS (str "equity") ≠ str "taiwan") ∧
    skippedEntriesFor nerOrg equityText 1800 (str "equity") = [] ∧
    acceptedEntriesFor nerOrg equityText 1800 (str "equity") [str "fair access"] =
      (finditer (patOf (str "equity")) equityText).map
        (mkEntry equityText 1800 (str "equity") [str "fair access"]) := by
  have h := C4_entity_tier_only_context_terms nerOrg equityText 1800 (str "equity")
    [str "fair access"] (by decide) (by decide)
  exact ⟨by decide, by decide, h.1, h.2⟩

/-- C5 (amended): `is_named_entity` returns true exactly when some
recognized entity's text contains the term as a case-insensitive substring
AND that entity's label is "ORG" — the label "ORG" alone qualifies, not
GPE or FAC. -/
theorem C5_entity_skip_requires_org (ner : Str → List (Str × Str)) (snippet term : Str) :
    is_named_entity ner snippet term = true ↔
      ∃ p ∈ ner snippet, substrB (lowerS term) (lowerS p.1) = true ∧ p.2 = str "ORG" := by
  simp [is_named_entity]

/-- C5 (counterexample): a recognized GeopoliticalEntity ("GPE") span whose
text contains the term does NOT make `is_named_entity` true. -/
theorem C5_counterexample :
    nerGpe (str "Taiwan is a country in East Asia.") = [(str "Taiwan", str "GPE")] ∧
    is_named_entity nerGpe (str "Taiwan is a country in East Asia.") (str "Taiwan") = false := by
  refine ⟨rfl, by decide⟩

/-- C7: the scan never silently drops a context-sensitive-term match —
there is no classifier-delegate call in the program at all, so no delegate
failure can affect the scan, and every match of "national"/"Taiwan" not
caught by the named-entity exception is appended to the accepted results. -/
theorem C7_no_silent_drop (ner : Str → List (Str × Str)) (text : Str)
    (dict : List (Str × List Str)) (cpp : Nat) (term : Str) (suggs : List Str) (i : Nat)
    (hmem : (term, suggs) ∈ dict) (_hctx : ctxSensitive term = true)
    (hi : i ∈ finditer (patOf term) text)
    (hskip : skipCond ner text term i = false) :
    mkEntry text cpp term suggs i ∈ (scan_text ner text dict cpp).1 := by
  have hstart : i ∈ acceptedStartsFor ner text term :=
    List.mem_filter.mpr ⟨hi, by simp [hskip]⟩
  have hentry : mkEntry text cpp term suggs i ∈ acceptedEntriesFor ner text cpp term suggs :=
    List.mem_map.mpr ⟨i, hstart, rfl⟩
  simp only [scan_text]
  exact List.mem_flatten.mpr ⟨acceptedEntriesFor ner text cpp term suggs,
    List.mem_map.mpr ⟨(term, suggs), hmem, rfl⟩, hentry⟩

/-- Witness for C7: the "Taiwan" match at offset 1 of a text the pattern
can match, with a recognizer finding no entities, lands in the accepted
results. -/
theorem C7_witness :
    ((str "Taiwan", [str "Chinese Taipei"]) ∈ taiwanDict) ∧
    ctxSensitive (str "Taiwan") = true ∧
    (1 ∈ finditer (patOf (str "Taiwan")) taiwanText) ∧
    skipCond nerNone taiwanText (str "Taiwan") 1 = false ∧
    mkEntry taiwanText 1800 (str "Taiwan") [str "Chinese Taipei"] 1 ∈
      (scan_text nerNone taiwanText taiwanDict 1800).1 :=
  ⟨by decide, by decide, by decide, by decide,
   C7_no_silent_drop nerNone taiwanText taiwanDict 1800 (str "Taiwan")
     [str "Chinese Taipei"] 1 (by decide) (by decide) (by decide) (by decide)⟩

/-- C9: scanning is deterministic — for byte-identical input texts, a fixed
dictionary and a fixed (stubbed) recognizer, `scan_text` returns identical
accepted and skipped sequences and an identical per-term frequency
summary. -/
theorem C9_deterministic (ner : Str → List (Str × Str)) (t1 t2 : Str)
    (dict : List (Str × List Str)) (cpp : Nat) (h : t1 = t2) :
    scan_text ner t1 dict cpp = scan_text ner t2 dict cpp ∧
    termFrequency (scan_text ner t1 dict cpp).1 =
      termFrequency (scan_text ner t2 dict cpp).1 := by
  subst h; exact ⟨rfl, rfl⟩

/-- Witness for C9: two scans of the same concrete text agree. -/
theorem C9_witness :
    idemText = idemText ∧
    (scan_text nerNone idemText scenario1Dict 1800 =
        scan_text nerNone idemText scenario1Dict 1800 ∧
      termFrequency (scan_text nerNone idemText scenario1Dict 1800).1 =
        termFrequency (scan_text nerNone idemText scenario1Dict 1800).1) :=
  ⟨rfl, C9_deterministic nerNone idemText idemText scenario1Dict 1800 rfl⟩

/-- C1 (code bug): the compiled pattern is the raw string
`rf"\\b(term)\\b"`, a LITERAL backslash-`b` on each side, not the
word-boundary assertion.  (a) On a sentence the app's own documentation
says "Should Be Flagged", the scan finds nothing at all; (b) on text that
does contain the literal characters, the scan reports a match whose
surface form `\bnational\b` sits directly between the alphanumeric
characters `x` and `z` — the match is not bounded by word boundaries. -/
theorem C1_pattern_is_literal_backslash_b :
    scan_text nerNone shouldFlagText banned_terms_dict 1800 =
      ([], [], shouldFlagText) ∧
    (scan_text nerNone bsNationalText nationalDict 1800).1.map Entry.bannedTerm =
      [str "\\bnational\\b"] := by
  refine ⟨by decide, by decide⟩

/-- C2 (code bug): on scenario 1's text and dictionary the scan detects
nothing — zero accepted findings instead of the specified two — because
the pattern requires a literal backslash-`b` around each term. -/
theorem C2_scenario1_detects_nothing :
    scan_text nerNone scenario1Text scenario1Dict 1800 =
      ([], [], scenario1Text) := by decide

/-- C6 (counterexample): on scenario 2's text the skipped list is empty —
no match is skipped at all, let alone with a `SkipAllowListPhrase`
verdict, and no such verdict exists anywhere in the program. -/
theorem C6_counterexample :
    (scan_text nerNone scenario2Text banned_terms_dict 1800).2.1.length = 0 := by
  decide

/-- C6 (amended): the program has no allow-list tier and no
`SkipAllowListPhrase` verdict; its only skip mechanism is the named-entity
(ORG) exception for "national"/"Taiwan", and on scenario 2's text the scan
returns zero accepted findings and zero skipped findings, because the
compiled pattern (literal backslash-`b`) matches nothing in that text. -/
theorem C6_scenario2_no_findings :
    scan_text nerNone scenario2Text banned_terms_dict 1800 =
      ([], [], scenario2Text) := by decide

/-- C8 (code bug): `scan_pdf` does tag each page's matches with the true
page number (pages numbered from 1, in order), but on the 3-page document
of scenario 4 — page 2 containing "equity" once — it produces no finding
at all instead of the specified single finding on page 2, because the
compiled pattern requires a literal backslash-`b` around the term. -/
theorem C8_scenario4_detects_nothing :
    scan_pdf nerNone pdfPages banned_terms_dict =
      ([], [], str "Intro.\nOur equity policy.\nEnd.\n") ∧
    (scan_pdf nerNone [str "A.", str "x \\bequity\\b y", str "B."]
        banned_terms_dict).1.map Entry.page = [2] := by
  refine ⟨by decide, by decide⟩
